import Mathlib

/-!
# Verification of the DockerMAN inventory/refresh core

A shallow embedding of the core of `src/dockerman.py`: the command
executor (`run_docker_command`, `execute_command`), the identifier
validator (`validate_docker_id`), the liveness probe
(`is_docker_running`), the listing/refresh task (`list_docker_items`),
the rebuild and copy operations, and a small step model for the
tree-mutation sequence a refresh performs.

The external runtime is modelled as an oracle `Exec : String →
CommandResult` giving each command's captured stdout/stderr (the
Python `try/except` around `subprocess.Popen` folds into the oracle:
a launch failure is the oracle answering with empty stdout and an
`Error: ...` stderr, exactly what the source returns in that case).
The GUI `Treeview` is modelled as the list of its rows (`TreeItem`),
and the `output_box` as the list of strings inserted into it.

Python string primitives used by the source (`str.split` on a
one-character separator, `str.strip`, substring `in`) are embedded as
structurally recursive functions over `List Char` so that every
definition evaluates by kernel reduction.
-/

namespace DockerMan

/-! ## Python string primitives -/

/-- The whitespace set of Python `str.strip()`. -/
def isSpaceChar (c : Char) : Bool :=
  c = ' ' || c = '\t' || c = '\n' || c = '\r' || c = '\x0b' || c = '\x0c'

/-- Python `s.strip(chars)`: drop the characters satisfying `p` from both ends. -/
def pyStrip (p : Char → Bool) (s : String) : String :=
  ⟨((s.data.dropWhile p).reverse.dropWhile p).reverse⟩

/-- Python `s.strip()` (no argument): strip whitespace from both ends. -/
def pyStripWs (s : String) : String :=
  pyStrip isSpaceChar s

/-- Python `s.split(sep)` for a one-character separator, on `List Char`:
always returns at least one (possibly empty) piece and keeps empty pieces. -/
def splitOnChar (sep : Char) : List Char → List (List Char)
  | [] => [[]]
  | c :: cs =>
      let r := splitOnChar sep cs
      if c = sep then [] :: r
      else
        match r with
        | [] => [[c]]
        | x :: xs => (c :: x) :: xs

/-- Python `s.split(sep)` for a one-character separator. -/
def pySplit (sep : Char) (s : String) : List String :=
  (splitOnChar sep s.data).map (fun l => ⟨l⟩)

/-- `n` is a prefix of `h` (character lists). -/
def listStartsWith : List Char → List Char → Bool
  | [], _ => true
  | _ :: _, [] => false
  | a :: as, b :: bs => a = b && listStartsWith as bs

/-- Python `needle in hay` for strings, on character lists. -/
def containsSub (needle : List Char) : List Char → Bool
  | [] => listStartsWith needle []
  | c :: cs => listStartsWith needle (c :: cs) || containsSub needle cs

/-- The character class `[a-zA-Z0-9]` of the source's identifier regex. -/
def isAlnumChar (c : Char) : Bool :=
  c.isAlpha || c.isDigit

/-! ## Command executor -/

/-- The pair returned by `run_docker_command`: captured stdout and stderr. -/
structure CommandResult where
  stdout : String
  stderr : String
deriving DecidableEq, Repr

/-- The external runtime as an oracle from command line to captured output. -/
abbrev Exec := String → CommandResult

/-- `run_docker_command(command)` of the source: runs the command and returns
`(stdout, stderr)`; the exception path (launch failure) is part of the oracle,
which then answers `("", "Error: ...")` exactly as the source does. -/
def run_docker_command (exec : Exec) (command : String) : CommandResult :=
  exec command

/-- `execute_command(command, output_box)` of the source, as the list of
strings it inserts into the output box: the `$ command` banner, then the
stdout if non-empty, then `Error: stderr` if the stderr is non-empty. -/
def execute_command (exec : Exec) (command : String) : List String :=
  ("$ " ++ command ++ "\n") ::
    ((if (run_docker_command exec command).stdout ≠ "" then
        [(run_docker_command exec command).stdout ++ "\n"] else []) ++
     (if (run_docker_command exec command).stderr ≠ "" then
        ["Error: " ++ (run_docker_command exec command).stderr ++ "\n"] else []))

/-! ## Identifier validation

`validate_docker_id` matches `re.match(r'^[a-zA-Z0-9]{12,}$', s)`.
Python's `re` (without `MULTILINE`) lets `$` match either at the end of
the string or just before a final newline, so the regex accepts exactly:
a string of 12 or more `[a-zA-Z0-9]` characters, or such a string
followed by one trailing `'\n'`. -/

/-- The body `[a-zA-Z0-9]{12,}` of the identifier regex on a character list. -/
def idBody (l : List Char) : Bool :=
  12 ≤ l.length && l.all isAlnumChar

/-- `validate_docker_id(docker_id)` of the source:
`re.match(r'^[a-zA-Z0-9]{12,}$', docker_id) is not None`, with Python's
`$`-before-trailing-newline semantics made explicit. -/
def validate_docker_id (docker_id : String) : Bool :=
  idBody docker_id.data ||
    (docker_id.data.getLast? = some '\n' && idBody docker_id.data.dropLast)

/-! ## Liveness probe -/

/-- Outcome of the `subprocess.run("docker info", ...)` call inside
`is_docker_running`: the process exits with some code, or launching it
raises an exception. -/
inductive ProcResult where
  | exits (code : Int)
  | raises
deriving DecidableEq, Repr

/-- `is_docker_running()` of the source: `subprocess.run` is called without
`check=True` and its return code is never inspected, so the function returns
`True` whenever the call does not raise, regardless of the exit code; only
the bare `except` path returns `False`. -/
def is_docker_running (r : ProcResult) : Bool :=
  match r with
  | .exits _ => true
  | .raises => false

/-- One tick of `update_docker_status()`: the status label written for the
given probe outcome. -/
def statusTickLabel (r : ProcResult) : String :=
  if is_docker_running r then "Docker Status: Running" else "Docker Status: Not Running"

/-! ## The Treeview as inventory store

`tree.insert("", "end", text=..., values=(...), tags=(tag,))` becomes
appending a `TreeItem`; `values[0]` is the item-kind tag
(`"container"`, `"image"`, `"network"`, `"project"`). -/

/-- One row of the Treeview. -/
structure TreeItem where
  text : String
  values : List String
  tag : String
deriving DecidableEq, Repr

/-- The predicate of the clearing loop in `list_docker_items`: a row is kept
iff `tree.item(item)['values'][0]` equals `"project"`. -/
def isProjectItem (it : TreeItem) : Bool :=
  it.values.getD 0 "" = "project"

/-! ## Listing commands (literal command strings of the source) -/

/-- The container listing command built by `refresh_containers`. -/
def containersCmd : String :=
  "docker ps -a --format \"\x7b\x7b.ID\x7d\x7d|\x7b\x7b.Image\x7d\x7d|\x7b\x7b.Command\x7d\x7d|\x7b\x7b.CreatedAt\x7d\x7d|\x7b\x7b.Status\x7d\x7d|\x7b\x7b.Names\x7d\x7d\""

/-- The image listing command built by `refresh_images`. -/
def imagesCmd : String :=
  "docker images --format \"\x7b\x7b.Repository\x7d\x7d|\x7b\x7b.Tag\x7d\x7d|\x7b\x7b.ID\x7d\x7d|\x7b\x7b.CreatedSince\x7d\x7d|\x7b\x7b.Size\x7d\x7d\""

/-- The network listing command built by `refresh_networks`. -/
def networksCmd : String :=
  "docker network ls --format \"\x7b\x7b.ID\x7d\x7d|\x7b\x7b.Name\x7d\x7d|\x7b\x7b.Driver\x7d\x7d|\x7b\x7b.Scope\x7d\x7d\""

/-- The live-stats command issued inside `list_docker_items` for containers. -/
def statsCmd : String :=
  "docker stats --no-stream --format \"\x7b\x7b.Container\x7d\x7d|\x7b\x7b.CPUPerc\x7d\x7d|\x7b\x7b.MemUsage\x7d\x7d\""

/-- The fresh name listing issued by `copy_container` for its conflict check. -/
def namesListCmd : String :=
  "docker ps -a --format \"\x7b\x7b.Names\x7d\x7d\""

/-! ## Stats and size queries -/

/-- The stats-dict construction of `list_docker_items`: keep exactly the
lines with exactly 3 `|`-separated parts, in input order. -/
def statsEntries (statsOutput : String) : List (String × String × String) :=
  (pySplit '\n' (pyStripWs statsOutput)).filterMap (fun line =>
    match pySplit '|' line with
    | [cid, cpu, mem] => some (cid, cpu, mem)
    | _ => none)

/-- `stats.get(container_id, ("N/A", "N/A"))`: a later line for the same id
overrides an earlier one (Python dict assignment), hence the reverse lookup. -/
def statsGet (entries : List (String × String × String)) (cid : String) : String × String :=
  match entries.reverse.find? (fun e => e.1 = cid) with
  | some e => (e.2.1, e.2.2)
  | none => ("N/A", "N/A")

/-- `get_container_size(container_id)` of the source. -/
def get_container_size (exec : Exec) (container_id : String) : String :=
  let r := run_docker_command exec
    ("docker ps -s -a --filter id=" ++ container_id ++ " --format \x27\x7b\x7b.Size\x7d\x7d\x27")
  if r.stderr ≠ "" || pyStripWs r.stdout = "" then "N/A"
  else pyStripWs r.stdout

/-! ## Per-line parsing of `list_docker_items` -/

/-- The container branch of the parsing loop: skip lines with fewer than 6
`|`-parts, otherwise build the inserted row. Extra parts beyond the sixth are
ignored, and the identifier is NOT validated on this path. -/
def containerItem (exec : Exec) (stats : List (String × String × String))
    (line : String) : Option TreeItem :=
  let parts := pySplit '|' line
  if parts.length < 6 then none
  else
    let container_id := parts.getD 0 ""
    let image := parts.getD 1 ""
    let command_str := pyStrip (fun c => c = '"') (parts.getD 2 "")
    let created_at := parts.getD 3 ""
    let status_full := parts.getD 4 ""
    let name := parts.getD 5 ""
    let is_running := containsSub "Up".data status_full.data
    let cpuMem := statsGet stats container_id
    let size := get_container_size exec container_id
    some { text := container_id,
           values := ["container", name,
                      if is_running then "Running" else "Stopped",
                      image, command_str, created_at, cpuMem.1, cpuMem.2, size],
           tag := if is_running then "running" else "stopped" }

/-- The image branch of the parsing loop: skip lines with fewer than 5
`|`-parts; display name is `repository ++ ":" ++ tag`. -/
def imageItem (line : String) : Option TreeItem :=
  let parts := pySplit '|' line
  if parts.length < 5 then none
  else
    let repository := parts.getD 0 ""
    let tag := parts.getD 1 ""
    let image_id := parts.getD 2 ""
    let created_since := parts.getD 3 ""
    let size := parts.getD 4 ""
    some { text := image_id,
           values := ["image", "-", repository ++ ":" ++ tag, "-",
                      created_since, "-", "-", size],
           tag := "image" }

/-- The network branch of the parsing loop: skip lines with fewer than 4
`|`-parts. -/
def networkItem (line : String) : Option TreeItem :=
  let parts := pySplit '|' line
  if parts.length < 4 then none
  else
    let network_id := parts.getD 0 ""
    let name := parts.getD 1 ""
    let driver := parts.getD 2 ""
    let scope := parts.getD 3 ""
    some { text := network_id,
           values := ["network", "-", name, driver, scope, "-", "-", "-"],
           tag := "network" }

/-- One iteration of the parsing loop of `list_docker_items`: empty lines are
skipped (`if not line: continue`), then the branch for the item type runs; an
unknown item type inserts nothing. -/
def lineItem (exec : Exec) (stats : List (String × String × String))
    (itemType : String) (line : String) : Option TreeItem :=
  if line = "" then none
  else if itemType = "container" then containerItem exec stats line
  else if itemType = "image" then imageItem line
  else if itemType = "network" then networkItem line
  else none

/-- The field count below which the parsing loop skips a line:
`len(parts) < 6` for containers, `< 5` for images, `< 4` for networks. -/
def requiredFields (itemType : String) : Nat :=
  if itemType = "container" then 6
  else if itemType = "image" then 5
  else if itemType = "network" then 4
  else 0

/-- The stats fetched by `list_docker_items`: only for the container type
(the stats command's stderr is discarded by the source: `stats_output, _`). -/
def taskStats (exec : Exec) (itemType : String) : List (String × String × String) :=
  if itemType = "container" then statsEntries (run_docker_command exec statsCmd).stdout
  else []

/-- The records a successful listing contributes:
`output.strip().split('\n')` filtered through the parsing loop. -/
def parsedItems (exec : Exec) (stats : List (String × String × String))
    (itemType : String) (output : String) : List TreeItem :=
  (pySplit '\n' (pyStripWs output)).filterMap (lineItem exec stats itemType)

/-- The `task()` body of `list_docker_items(command, item_type)`: returns the
new Treeview contents and the strings inserted into the output box.
On non-empty stderr it returns before touching the tree, reporting the error;
otherwise it deletes every non-project row, fetches stats (containers only),
and appends one row per parseable line, with the source's early return when
the output is empty. -/
def listDockerItemsTask (exec : Exec) (command itemType : String)
    (tree : List TreeItem) : List TreeItem × List String :=
  let r := run_docker_command exec command
  if r.stderr ≠ "" then
    (tree, execute_command exec ("# Error listing " ++ itemType ++ "s: " ++ r.stderr))
  else
    let cleared := tree.filter isProjectItem
    let stats := taskStats exec itemType
    let lines := pySplit '\n' (pyStripWs r.stdout)
    if lines = [] ∨ (lines.length = 1 ∧ lines.getD 0 "" = "") then (cleared, [])
    else (cleared ++ lines.filterMap (lineItem exec stats itemType), [])

/-! ## Rebuild operation -/

/-- The three commands of `rebuild_container_thread`, in source order. -/
def rebuildCommands (container_id image_name : String) : List String :=
  ["docker stop " ++ container_id,
   "docker rm " ++ container_id,
   "docker run -d --name " ++ container_id ++ " " ++ image_name]

/-- `rebuild_container_thread(container_id, image_name)` of the source, as
the output-box transcript: each of the three commands is executed via
`execute_command` unconditionally, in order, with no abort on failure. -/
def rebuild_container_thread (exec : Exec) (container_id image_name : String) : List String :=
  (rebuildCommands container_id image_name).flatMap (fun c => execute_command exec c)

/-! ## Copy operation -/

/-- The outcome of `copy_container`. -/
inductive CopyOutcome where
  | canceled
  | emptyName
  | nameConflict
  | dispatched
deriving DecidableEq, Repr

/-- `copy_container()` of the source (with the target id and the dialog
answer as inputs): `None` or the empty string cancels; a whitespace-only name
is an input error; otherwise a FRESH name listing is fetched and an exact
membership test decides the conflict. The returned list holds the commands
the copy flow issues: the fresh listing, and — only when dispatched — the
commit and create commands of `copy_container_thread` (the trailing
refreshes are the separate `listDockerItemsTask`). -/
def copy_container (exec : Exec) (container_id : String)
    (newName : Option String) : CopyOutcome × List String :=
  match newName with
  | none => (.canceled, [])
  | some n =>
    if n = "" then (.canceled, [])
    else if pyStripWs n = "" then (.emptyName, [])
    else
      let existing_names := pySplit '\n' (pyStripWs (run_docker_command exec namesListCmd).stdout)
      if n ∈ existing_names then (.nameConflict, [namesListCmd])
      else (.dispatched,
            [namesListCmd,
             "docker commit " ++ container_id ++ " backup_" ++ container_id,
             "docker create --name " ++ n ++ " backup_" ++ container_id])

/-! ## Step model of the tree mutation performed by a refresh

A successful refresh mutates the shared Treeview by a SEQUENCE of calls
(`tree.delete` per non-project row, then `tree.insert` per parsed line)
with no lock; `threading.Thread(target=task).start()` lets two refreshes
run these steps interleaved. Each call is one atomic `TreeOp` (modelling
the whole clearing loop as a single step is generous to the source: any
mixture reachable under this coarse model is reachable under the
per-delete one). -/

/-- One atomic Treeview mutation issued by the refresh task. -/
inductive TreeOp where
  | clearNonProject
  | ins (it : TreeItem)
deriving DecidableEq, Repr

/-- Apply one mutation to the tree. -/
def applyOp (t : List TreeItem) : TreeOp → List TreeItem
  | .clearNonProject => t.filter isProjectItem
  | .ins it => t ++ [it]

/-- Run a sequence of mutations. -/
def runOps (t : List TreeItem) (ops : List TreeOp) : List TreeItem :=
  ops.foldl applyOp t

/-- The mutation sequence of one successful refresh inserting `items`. -/
def replaceOps (items : List TreeItem) : List TreeOp :=
  TreeOp.clearNonProject :: items.map TreeOp.ins

/-- `l` is an interleaving of the step sequences `as` and `bs` (each thread's
own steps stay in order). -/
inductive Interleaving : List TreeOp → List TreeOp → List TreeOp → Prop where
  | nil : Interleaving [] [] []
  | left {a : TreeOp} {as bs cs : List TreeOp} :
      Interleaving as bs cs → Interleaving (a :: as) bs (a :: cs)
  | right {b : TreeOp} {as bs cs : List TreeOp} :
      Interleaving as bs cs → Interleaving as (b :: bs) (b :: cs)

/-! ## Bridging lemmas -/

/-- Inserting a list of items appends it. -/
lemma runOps_map_ins (t : List TreeItem) (items : List TreeItem) :
    runOps t (items.map TreeOp.ins) = t ++ items := by
  induction items generalizing t with
  | nil => simp [runOps]
  | cons x xs ih =>
      simp only [List.map_cons, runOps, List.foldl_cons, applyOp]
      simpa [runOps] using ih (t ++ [x])

/-- One full (uninterleaved) replacement clears the non-project rows and
appends the new items. -/
lemma runOps_replaceOps (t : List TreeItem) (items : List TreeItem) :
    runOps t (replaceOps items) = t.filter isProjectItem ++ items := by
  simp only [replaceOps, runOps, List.foldl_cons, applyOp]
  exact runOps_map_ins _ _

/-- The lines behind the source's early return (`not lines`, or a single
empty line) contribute no parsed record. -/
lemma filterMap_lineItem_of_blank (exec : Exec) (stats : List (String × String × String))
    (itemType : String) (lines : List String)
    (h : lines = [] ∨ (lines.length = 1 ∧ lines.getD 0 "" = "")) :
    lines.filterMap (lineItem exec stats itemType) = [] := by
  rcases h with h | ⟨hlen, hhd⟩
  · subst h; rfl
  · match lines, hlen with
    | [x], _ =>
        simp only [List.getD, List.getElem?_cons_zero, Option.getD_some] at hhd
        subst hhd
        simp [lineItem]

/-- On a successful listing, the refresh task computes exactly the result of
its mutation sequence `replaceOps` applied to the starting tree. -/
lemma task_eq_runOps (exec : Exec) (command itemType : String) (tree : List TreeItem)
    (h : (run_docker_command exec command).stderr = "") :
    (listDockerItemsTask exec command itemType tree).1 =
      runOps tree (replaceOps (parsedItems exec (taskStats exec itemType) itemType
        (run_docker_command exec command).stdout)) := by
  rw [runOps_replaceOps]
  unfold listDockerItemsTask parsedItems
  simp only [h, ne_eq, not_true_eq_false, if_false, ite_false]
  split
  · next hblank =>
      rw [filterMap_lineItem_of_blank exec _ itemType _ hblank]
      simp
  · rfl

/-! ## Claim theorems -/

/-- C1: if the listing command fails (non-empty stderr, the failure
criterion of the source's `if stderr:` guard), the refresh task returns
before touching the Treeview — every stored record of every kind is left
exactly as it was — and the failure is surfaced: the output box receives
exactly the error notice naming the kind and the stderr text. -/
theorem refresh_failure_preserves_records (exec : Exec) (command itemType : String)
    (tree : List TreeItem)
    (h : (run_docker_command exec command).stderr ≠ "") :
    (listDockerItemsTask exec command itemType tree).1 = tree ∧
    (listDockerItemsTask exec command itemType tree).2 =
      execute_command exec
        ("# Error listing " ++ itemType ++ "s: " ++ (run_docker_command exec command).stderr) := by
  unfold listDockerItemsTask
  simp [h]

/-- C1 witness: a failing container listing (`stderr = "boom"`) leaves a
one-row tree untouched and reports the failure. -/
theorem refresh_failure_preserves_records_witness :
    (listDockerItemsTask (fun _ => ⟨"", "boom"⟩) containersCmd "container"
        [⟨"abc123456789", ["container"], "stopped"⟩]).1 =
      [⟨"abc123456789", ["container"], "stopped"⟩] ∧
    (listDockerItemsTask (fun _ => ⟨"", "boom"⟩) containersCmd "container"
        [⟨"abc123456789", ["container"], "stopped"⟩]).2 =
      execute_command (fun _ => ⟨"", "boom"⟩)
        ("# Error listing " ++ "container" ++ "s: " ++
          (run_docker_command (fun _ => ⟨"", "boom"⟩) containersCmd).stderr) :=
  refresh_failure_preserves_records (fun _ => ⟨"", "boom"⟩) containersCmd "container"
    [⟨"abc123456789", ["container"], "stopped"⟩] (by decide)

/-- C5: a non-empty container line with exactly 6 `|`-separated fields and a
valid (12+ alphanumeric) identifier parses to exactly one record, whose
running-state column reads `Running` iff the status field (field 4) contains
the substring `Up`. -/
theorem container_line_parses_running_iff_up (exec : Exec)
    (stats : List (String × String × String)) (line : String)
    (hne : line ≠ "") (hlen : (pySplit '|' line).length = 6)
    (_hid : validate_docker_id ((pySplit '|' line).getD 0 "") = true) :
    ∃ it : TreeItem, lineItem exec stats "container" line = some it ∧
      (it.values.getD 2 "" = "Running" ↔
        containsSub "Up".data ((pySplit '|' line).getD 4 "").data = true) := by
  have h6 : ¬ (pySplit '|' line).length < 6 := by omega
  simp only [lineItem, containerItem, if_neg hne, if_neg h6, reduceIte]
  refine ⟨_, rfl, ?_⟩
  cases hUp : containsSub "Up".data ((pySplit '|' line).getD 4 "").data <;>
    simp [hUp]

/-- C5 witness: the spec's end-to-end container line parses to a record whose
running-state is `Running`. -/
theorem container_line_parses_running_iff_up_witness :
    ∃ it : TreeItem,
      lineItem (fun _ => ⟨"", ""⟩) []
          "container" "abc123456789|nginx:latest|\"nginx -g daemon off;\"|2024-01-01|Up 3 hours|web1" =
        some it ∧
      (it.values.getD 2 "" = "Running" ↔
        containsSub "Up".data
          ((pySplit '|' "abc123456789|nginx:latest|\"nginx -g daemon off;\"|2024-01-01|Up 3 hours|web1").getD 4 "").data = true) :=
  container_line_parses_running_iff_up (fun _ => ⟨"", ""⟩) []
    "abc123456789|nginx:latest|\"nginx -g daemon off;\"|2024-01-01|Up 3 hours|web1"
    (by decide) (by decide) (by decide)

/-- C2 counterexample: during a refresh the identifier is never validated.
The one-character identifier `x` fails `validate_docker_id`, yet the refresh
of a container listing whose only line carries it stores the record (and, the
output-box emissions being empty, no ParseError is reported for it). -/
theorem refresh_stores_invalid_id :
    validate_docker_id "x" = false ∧
    (listDockerItemsTask
        (fun c => if c = containersCmd then ⟨"x|img|cmd|2024|Up 1 hour|web", ""⟩ else ⟨"", ""⟩)
        containersCmd "container" []) =
      ([⟨"x", ["container", "web", "Running", "img", "cmd", "2024", "N/A", "N/A", "N/A"],
         "running"⟩], []) := by
  constructor
  · decide
  · decide

/-- C2 amended: during a refresh, any non-empty Container/Image/Network line
with at least the kind's field count is stored, with no requirement on the
identifier field — the `^[A-Za-z0-9]{12,}$` pattern is not enforced on the
refresh parsing path (`list_docker_items`; the source applies
`validate_docker_id` only in the search path and in selection validation). -/
theorem refresh_stores_regardless_of_id :
    (∀ (exec : Exec) (stats : List (String × String × String)) (line : String),
        line ≠ "" → 6 ≤ (pySplit '|' line).length →
        ∃ it : TreeItem, lineItem exec stats "container" line = some it ∧
          it.text = (pySplit '|' line).getD 0 "") ∧
    (∀ (exec : Exec) (stats : List (String × String × String)) (line : String),
        line ≠ "" → 5 ≤ (pySplit '|' line).length →
        ∃ it : TreeItem, lineItem exec stats "image" line = some it ∧
          it.text = (pySplit '|' line).getD 2 "") ∧
    (∀ (exec : Exec) (stats : List (String × String × String)) (line : String),
        line ≠ "" → 4 ≤ (pySplit '|' line).length →
        ∃ it : TreeItem, lineItem exec stats "network" line = some it ∧
          it.text = (pySplit '|' line).getD 0 "") := by
  refine ⟨?_, ?_, ?_⟩ <;> intro exec stats line hne hlen
  · have h6 : ¬ (pySplit '|' line).length < 6 := by omega
    simp only [lineItem, containerItem, if_neg hne, if_neg h6, reduceIte]
    exact ⟨_, rfl, rfl⟩
  · have h5 : ¬ (pySplit '|' line).length < 5 := by omega
    simp only [lineItem, imageItem, if_neg hne, if_neg h5, reduceIte]
    exact ⟨_, rfl, rfl⟩
  · have h4 : ¬ (pySplit '|' line).length < 4 := by omega
    simp only [lineItem, networkItem, if_neg hne, if_neg h4, reduceIte]
    exact ⟨_, rfl, rfl⟩

/-- C2 amended witness: the invalid identifier `x` is stored anyway. -/
theorem refresh_stores_regardless_of_id_witness :
    ∃ it : TreeItem,
      lineItem (fun _ => ⟨"", ""⟩) [] "container" "x|img|cmd|2024|Up 1 hour|web" = some it ∧
      it.text = (pySplit '|' "x|img|cmd|2024|Up 1 hour|web").getD 0 "" :=
  refresh_stores_regardless_of_id.1 (fun _ => ⟨"", ""⟩) [] "x|img|cmd|2024|Up 1 hour|web"
    (by decide) (by decide)

/-- C4 counterexample: a successful refresh of the network kind deletes the
stored container record — the clearing loop removes EVERY non-project row,
not only the rows of the refreshed kind — so records of the other runtime
kinds are not unchanged. -/
theorem refresh_network_removes_container :
    (listDockerItemsTask
        (fun c => if c = networksCmd then ⟨"0123456789ab|bridge|bridge|local", ""⟩ else ⟨"", ""⟩)
        networksCmd "network"
        [⟨"abc123456789", ["container", "web", "Running", "nginx", "cmd", "2024", "N/A", "N/A", "N/A"],
          "running"⟩,
         ⟨"myproj", ["project", "-", "-", "-", "-", "-", "-", "-", "-"], "project"⟩]).1 =
      [⟨"myproj", ["project", "-", "-", "-", "-", "-", "-", "-", "-"], "project"⟩,
       ⟨"0123456789ab", ["network", "-", "bridge", "bridge", "local", "-", "-", "-"], "network"⟩] ∧
    ⟨"abc123456789", ["container", "web", "Running", "nginx", "cmd", "2024", "N/A", "N/A", "N/A"],
      "running"⟩ ∉
      (listDockerItemsTask
        (fun c => if c = networksCmd then ⟨"0123456789ab|bridge|bridge|local", ""⟩ else ⟨"", ""⟩)
        networksCmd "network"
        [⟨"abc123456789", ["container", "web", "Running", "nginx", "cmd", "2024", "N/A", "N/A", "N/A"],
          "running"⟩,
         ⟨"myproj", ["project", "-", "-", "-", "-", "-", "-", "-", "-"], "project"⟩]).1 := by
  constructor
  · decide
  · decide

/-- C4 amended: a successful refresh of one kind keeps exactly the Project
rows (in order) and appends the refreshed kind's parsed records; every stored
Container, Image, and Network row is deleted regardless of the refreshed
kind. Only Project records survive a refresh of another kind. -/
theorem refresh_success_keeps_only_projects (exec : Exec) (command itemType : String)
    (tree : List TreeItem)
    (h : (run_docker_command exec command).stderr = "") :
    (listDockerItemsTask exec command itemType tree).1 =
      tree.filter isProjectItem ++
        parsedItems exec (taskStats exec itemType) itemType
          (run_docker_command exec command).stdout := by
  rw [task_eq_runOps exec command itemType tree h, runOps_replaceOps]

/-- C4 amended witness: a successful empty network refresh keeps exactly the
project row of a mixed tree. -/
theorem refresh_success_keeps_only_projects_witness :
    (listDockerItemsTask (fun _ => ⟨"", ""⟩) networksCmd "network"
        [⟨"abc123456789", ["container"], "running"⟩,
         ⟨"myproj", ["project"], "project"⟩]).1 =
      [⟨"abc123456789", ["container"], "running"⟩,
       ⟨"myproj", ["project"], "project"⟩].filter isProjectItem ++
        parsedItems (fun _ => ⟨"", ""⟩) (taskStats (fun _ => ⟨"", ""⟩) "network") "network"
          (run_docker_command (fun _ => ⟨"", ""⟩) networksCmd).stdout :=
  refresh_success_keeps_only_projects (fun _ => ⟨"", ""⟩) networksCmd "network"
    [⟨"abc123456789", ["container"], "running"⟩, ⟨"myproj", ["project"], "project"⟩]
    (by decide)

/-- C6 counterexample: a container listing whose only line `abc|def` has too
few fields yields zero records AND an empty output-box emission — the line is
skipped by a bare `continue`, with no output-box insertion and no logging
call, so no ParseError is reported (the claim requires exactly one). -/
theorem short_line_reports_no_error :
    (listDockerItemsTask
        (fun c => if c = containersCmd then ⟨"abc|def", ""⟩ else ⟨"", ""⟩)
        containersCmd "container" []) = ([], []) := by
  decide

/-- C6 amended: a line with fewer `|`-separated fields than the kind's schema
produces zero records and is skipped silently — no error is reported for it —
and parsing continues with the remaining lines of the batch; the parsing
functions are total, so no exception is possible. -/
theorem short_line_skipped_silently (exec : Exec)
    (stats : List (String × String × String)) (itemType line : String)
    (rest : List String)
    (h : (pySplit '|' line).length < requiredFields itemType) :
    lineItem exec stats itemType line = none ∧
    (line :: rest).filterMap (lineItem exec stats itemType) =
      rest.filterMap (lineItem exec stats itemType) := by
  have hnone : lineItem exec stats itemType line = none := by
    by_cases hline : line = ""
    · simp [lineItem, hline]
    · by_cases hc : itemType = "container"
      · subst hc
        rw [show requiredFields "container" = 6 from rfl] at h
        simp [lineItem, containerItem, hline, h]
      · by_cases hi : itemType = "image"
        · subst hi
          rw [show requiredFields "image" = 5 from rfl] at h
          simp [lineItem, imageItem, hline, h]
        · by_cases hn : itemType = "network"
          · subst hn
            rw [show requiredFields "network" = 4 from rfl] at h
            simp [lineItem, networkItem, hline, h]
          · simp only [requiredFields, if_neg hc, if_neg hi, if_neg hn] at h
            omega
  exact ⟨hnone, by simp [List.filterMap_cons, hnone]⟩

/-- C6 amended witness: the short line `abc|def` is skipped and the following
well-formed container line still parses. -/
theorem short_line_skipped_silently_witness :
    lineItem (fun _ => ⟨"", ""⟩) [] "container" "abc|def" = none ∧
    (["abc|def", "abc123456789|img|cmd|2024|Up|web"] :
        List String).filterMap (lineItem (fun _ => ⟨"", ""⟩) [] "container") =
      ["abc123456789|img|cmd|2024|Up|web"].filterMap
        (lineItem (fun _ => ⟨"", ""⟩) [] "container") :=
  short_line_skipped_silently (fun _ => ⟨"", ""⟩) [] "container" "abc|def"
    ["abc123456789|img|cmd|2024|Up|web"] (by decide)

/-- C3 counterexample: two concurrent replacements of the container kind with
sets A and B are NOT atomic. Their mutation sequences can interleave (each
thread keeping its own order) so that the final tree — read after both
complete — is neither A nor B but holds a record of A and a record of B. -/
theorem interleaved_replace_mixes :
    ∃ l : List TreeOp,
      Interleaving
        (replaceOps [⟨"aaaaaaaaaaa1", ["container"], "stopped"⟩,
                     ⟨"aaaaaaaaaaa2", ["container"], "stopped"⟩])
        (replaceOps [⟨"bbbbbbbbbbb1", ["container"], "stopped"⟩,
                     ⟨"bbbbbbbbbbb2", ["container"], "stopped"⟩]) l ∧
      runOps [] l ≠ [⟨"aaaaaaaaaaa1", ["container"], "stopped"⟩,
                     ⟨"aaaaaaaaaaa2", ["container"], "stopped"⟩] ∧
      runOps [] l ≠ [⟨"bbbbbbbbbbb1", ["container"], "stopped"⟩,
                     ⟨"bbbbbbbbbbb2", ["container"], "stopped"⟩] ∧
      ⟨"aaaaaaaaaaa2", ["container"], "stopped"⟩ ∈ runOps [] l ∧
      ⟨"bbbbbbbbbbb1", ["container"], "stopped"⟩ ∈ runOps [] l := by
  refine ⟨[TreeOp.clearNonProject, TreeOp.ins ⟨"aaaaaaaaaaa1", ["container"], "stopped"⟩,
           TreeOp.clearNonProject, TreeOp.ins ⟨"bbbbbbbbbbb1", ["container"], "stopped"⟩,
           TreeOp.ins ⟨"aaaaaaaaaaa2", ["container"], "stopped"⟩,
           TreeOp.ins ⟨"bbbbbbbbbbb2", ["container"], "stopped"⟩],
         ?_, by decide, by decide, by decide, by decide⟩
  exact .left (.left (.right (.right (.left (.right .nil)))))

/-- C3 amended: the replacement is a lock-free sequence of per-row tree
mutations, so interleaved concurrent replacements can yield a mixture of the
two sets (see the counterexample); only when the two replacements are
serialized — one runs all its steps before the other starts — is the result
the later set: for non-project record sets, A-then-B leaves exactly the
prior project rows followed by B (last writer wins at kind granularity). -/
theorem serialized_replace_last_writer_wins (t A B : List TreeItem)
    (hA : ∀ it ∈ A, isProjectItem it = false) :
    runOps t (replaceOps A ++ replaceOps B) = t.filter isProjectItem ++ B := by
  have hsplit : runOps t (replaceOps A ++ replaceOps B) =
      runOps (runOps t (replaceOps A)) (replaceOps B) := by
    simp [runOps, List.foldl_append]
  have hAnil : A.filter isProjectItem = [] :=
    List.filter_eq_nil_iff.mpr (by intro a ha; simp [hA a ha])
  rw [hsplit, runOps_replaceOps, runOps_replaceOps, List.filter_append, hAnil,
    List.filter_filter]
  simp

/-- C3 amended witness: serialized replacement on a tree holding one project
row ends with the project row and exactly B. -/
theorem serialized_replace_last_writer_wins_witness :
    runOps [⟨"myproj", ["project"], "project"⟩]
        (replaceOps [⟨"aaaaaaaaaaa1", ["container"], "stopped"⟩] ++
         replaceOps [⟨"bbbbbbbbbbb1", ["container"], "stopped"⟩]) =
      [⟨"myproj", ["project"], "project"⟩].filter isProjectItem ++
        [⟨"bbbbbbbbbbb1", ["container"], "stopped"⟩] :=
  serialized_replace_last_writer_wins [⟨"myproj", ["project"], "project"⟩]
    [⟨"aaaaaaaaaaa1", ["container"], "stopped"⟩]
    [⟨"bbbbbbbbbbb1", ["container"], "stopped"⟩] (by decide)

/-- C7 (code bug): the liveness probe ignores the exit code. When
`docker info` exits non-zero (daemon down), `subprocess.run` — called
without `check=True` — raises nothing, so `is_docker_running` returns
`True` and the status tick still reports the daemon as running, contrary
to the claim that a failed probe yields "not running". -/
theorem docker_running_ignores_exit_code :
    is_docker_running (ProcResult.exits 1) = true ∧
    statusTickLabel (ProcResult.exits 1) = "Docker Status: Running" := by
  constructor
  · rfl
  · rfl

/-- C8: the rebuild thread executes its three commands — stop, remove,
run-new-from-image — in exactly that order with no abort on failure
(transcript is the concatenation of the three executions), and when the
stop step fails its error is recorded in the transcript while the remove
and run steps are still executed (their banners appear). -/
theorem rebuild_runs_all_steps_reports_first_failure (exec : Exec)
    (container_id image_name : String) :
    rebuild_container_thread exec container_id image_name =
      execute_command exec ("docker stop " ++ container_id) ++
        (execute_command exec ("docker rm " ++ container_id) ++
          execute_command exec ("docker run -d --name " ++ container_id ++ " " ++ image_name)) ∧
    ((run_docker_command exec ("docker stop " ++ container_id)).stderr ≠ "" →
      ("$ " ++ ("docker rm " ++ container_id) ++ "\n") ∈
          rebuild_container_thread exec container_id image_name ∧
      ("$ " ++ ("docker run -d --name " ++ container_id ++ " " ++ image_name) ++ "\n") ∈
          rebuild_container_thread exec container_id image_name ∧
      ("Error: " ++ (run_docker_command exec ("docker stop " ++ container_id)).stderr ++ "\n") ∈
          rebuild_container_thread exec container_id image_name) := by
  constructor
  · simp [rebuild_container_thread, rebuildCommands]
  · intro hfail
    refine ⟨?_, ?_, ?_⟩ <;>
      simp [rebuild_container_thread, rebuildCommands, execute_command, hfail]

/-- C8 witness: with a failing stop command, the remove and run banners and
the stop error all appear in the transcript. -/
theorem rebuild_runs_all_steps_reports_first_failure_witness :
    ("$ " ++ ("docker rm " ++ "abc123456789") ++ "\n") ∈
        rebuild_container_thread
          (fun c => if c = "docker stop abc123456789" then ⟨"", "stop failed"⟩ else ⟨"ok", ""⟩)
          "abc123456789" "nginx:latest" ∧
    ("$ " ++ ("docker run -d --name " ++ "abc123456789" ++ " " ++ "nginx:latest") ++ "\n") ∈
        rebuild_container_thread
          (fun c => if c = "docker stop abc123456789" then ⟨"", "stop failed"⟩ else ⟨"ok", ""⟩)
          "abc123456789" "nginx:latest" ∧
    ("Error: " ++
        (run_docker_command
          (fun c => if c = "docker stop abc123456789" then ⟨"", "stop failed"⟩ else ⟨"ok", ""⟩)
          ("docker stop " ++ "abc123456789")).stderr ++ "\n") ∈
        rebuild_container_thread
          (fun c => if c = "docker stop abc123456789" then ⟨"", "stop failed"⟩ else ⟨"ok", ""⟩)
          "abc123456789" "nginx:latest" :=
  (rebuild_runs_all_steps_reports_first_failure
    (fun c => if c = "docker stop abc123456789" then ⟨"", "stop failed"⟩ else ⟨"ok", ""⟩)
    "abc123456789" "nginx:latest").2 (by decide)

/-- C9: when the operator-chosen name appears in the FRESH name listing, the
copy operation returns the name-conflict error having issued only the listing
query — no commit and no create command — and the conflict check indeed
depends only on the fresh listing's output (two runtimes agreeing on the
name listing get identical copy behavior; no cached snapshot is consulted). -/
theorem copy_name_conflict_no_commands :
    (∀ (exec : Exec) (container_id n : String),
        n ≠ "" → pyStripWs n ≠ "" →
        n ∈ pySplit '\n' (pyStripWs (run_docker_command exec namesListCmd).stdout) →
        copy_container exec container_id (some n) =
          (CopyOutcome.nameConflict, [namesListCmd])) ∧
    (∀ (exec exec' : Exec) (container_id : String) (newName : Option String),
        exec namesListCmd = exec' namesListCmd →
        copy_container exec container_id newName =
          copy_container exec' container_id newName) := by
  constructor
  · intro exec container_id n h1 h2 h3
    simp [copy_container, h1, h2, h3]
  · intro exec exec' container_id newName h
    cases newName with
    | none => rfl
    | some n => simp [copy_container, run_docker_command, h]

/-- C9 witness: the spec's scenario — existing names `web` and `db`, chosen
name `web` — yields the conflict outcome with only the listing issued. -/
theorem copy_name_conflict_no_commands_witness :
    copy_container (fun c => if c = namesListCmd then ⟨"web\ndb", ""⟩ else ⟨"", ""⟩)
        "abc123456789" (some "web") =
      (CopyOutcome.nameConflict, [namesListCmd]) :=
  copy_name_conflict_no_commands.1
    (fun c => if c = namesListCmd then ⟨"web\ndb", ""⟩ else ⟨"", ""⟩)
    "abc123456789" "web" (by decide) (by decide) (by decide)

/-- C10: under Python `re.match`, `$` also matches just before a final
newline, so `validate_docker_id` accepts every 12+ alphanumeric identifier
with a single trailing newline appended; in particular the accepted string
`"abc123def456\n"` is not purely alphanumeric, so acceptance does not imply
the string consists solely of alphanumeric characters. -/
theorem validate_id_accepts_trailing_newline :
    (∀ l : List Char, 12 ≤ l.length → l.all isAlnumChar = true →
        validate_docker_id ⟨l ++ ['\n']⟩ = true) ∧
    validate_docker_id "abc123def456\n" = true ∧
    ("abc123def456\n").data.all isAlnumChar = false := by
  refine ⟨?_, by decide, by decide⟩
  intro l hlen hall
  unfold validate_docker_id
  apply Bool.or_eq_true_iff.mpr
  right
  show (decide ((l ++ ['\n']).getLast? = some '\n') && idBody (l ++ ['\n']).dropLast) = true
  rw [List.getLast?_concat, List.dropLast_concat]
  simp [idBody, hall, hlen]

/-- C10 witness: a concrete 12-character alphanumeric identifier with a
trailing newline is accepted. -/
theorem validate_id_accepts_trailing_newline_witness :
    validate_docker_id ⟨"abc123def456".data ++ ['\n']⟩ = true :=
  validate_id_accepts_trailing_newline.1 "abc123def456".data (by decide) (by decide)

end DockerMan
